import Mathlib

/-!
Verification of the cat-stacking game core (tower/stability simulation and
mode-aware game state machine) against its natural-language specification.

The embedding follows the TypeScript source:
  * `src/lib/constants.ts`           — numeric constants
  * `src/lib/game/cat.ts`            — cat entity, stability, expressions
  * the physics utilities module     — overlap, sticky condition, makeCatStatic
  * `src/lib/game/tower.ts`          — tower manager, win condition
  * `src/lib/game/scoring.ts`        — scoring engine
  * the pendulum module              — sinusoidal pendulum and difficulty
  * the game state machine module    — transitions, restart

Numbers are modelled as rationals (`ℚ`); the only real-valued parts are the
pendulum position (which uses `Real.sin`) and body speed (`Real.sqrt`).  The
source compares the speed `Math.sqrt(vx²+vy²)` against nonnegative thresholds;
the executable embedding compares the squared speed against the squared
threshold, which is equivalent since `Real.sqrt` is monotone on nonnegatives
(`getBodySpeed_le_iff` / `getBodySpeed_gt_iff` below prove the equivalence).
`Date.now()` is modelled by passing the current time as an explicit argument.
The Matter.js physics world is modelled as the list of body ids it contains.
Cosmetic fields that no claim touches (colour variant, squish animation) are
omitted from the cat entity.
-/

/-- Canvas width in logical pixels (`CANVAS_WIDTH` in constants.ts). -/
def CANVAS_WIDTH : ℚ := 720

/-- Canvas height in logical pixels (`CANVAS_HEIGHT` in constants.ts). -/
def CANVAS_HEIGHT : ℚ := 1280

/-- Speed below which a body counts as stable (`STABILITY_VELOCITY_THRESHOLD`). -/
def STABILITY_VELOCITY_THRESHOLD : ℚ := 0.5

/-- Time (ms) of sub-threshold speed required for stability (`STABILITY_TIME_REQUIRED`). -/
def STABILITY_TIME_REQUIRED : ℚ := 2000

/-- Ground platform height (`GROUND_HEIGHT`). -/
def GROUND_HEIGHT : ℚ := 60

/-- Center Y of the ground body: `CANVAS_HEIGHT - GROUND_HEIGHT / 2`. -/
def GROUND_Y : ℚ := CANVAS_HEIGHT - GROUND_HEIGHT / 2

/-- Y position below which cats count as fallen (`DEATH_ZONE_Y`). -/
def DEATH_ZONE_Y : ℚ := CANVAS_HEIGHT + 100

/-- Pendulum swing amplitude as a fraction of screen width (`SWING_AMPLITUDE`). -/
def SWING_AMPLITUDE : ℚ := 0.35

/-- Base pendulum period in ms (`SWING_PERIOD`). -/
def SWING_PERIOD : ℚ := 3500

/-- Per-level pendulum speed increase factor (`SPEED_INCREASE_FACTOR`). -/
def SPEED_INCREASE_FACTOR : ℚ := 0.175

/-- Y position of the pendulum cat (`PENDULUM_Y`). -/
def PENDULUM_Y : ℚ := 100

/-- Stacked-cat counts at which difficulty increases (`DIFFICULTY_THRESHOLDS`). -/
def DIFFICULTY_THRESHOLDS : List ℕ := [5, 10, 15, 20, 25, 30]

/-- Speed above which a cat wobbles (`WOBBLE_VELOCITY_THRESHOLD`). -/
def WOBBLE_VELOCITY_THRESHOLD : ℚ := 2.0

/-- Base points per stacked cat (`POINTS_PER_STACK`). -/
def POINTS_PER_STACK : ℚ := 1

/-- Bonus points for a perfect landing (`PERFECT_BONUS`). -/
def PERFECT_BONUS : ℚ := 2

/-- Perfect-landing offset threshold as a fraction of cat width (`PERFECT_THRESHOLD`). -/
def PERFECT_THRESHOLD : ℚ := 0.125

/-- Duration of the "Perfect!" display in ms (`PERFECT_DISPLAY_DURATION`). -/
def PERFECT_DISPLAY_DURATION : ℚ := 1500

/-- Y coordinate of the win line (`WIN_LINE_Y`). -/
def WIN_LINE_Y : ℚ := 128

/-- Minimum horizontal overlap fraction for sticking (`OVERLAP_THRESHOLD`). -/
def OVERLAP_THRESHOLD : ℚ := 0.55

/-- Settling time in ms before a cat may become sticky (`STICKY_SETTLE_TIME`). -/
def STICKY_SETTLE_TIME : ℚ := 300

/-- Cat body width (`CAT_WIDTH` in cat.ts / physics module). -/
def CAT_WIDTH : ℚ := 80

/-- Cat body height (`CAT_HEIGHT`). -/
def CAT_HEIGHT : ℚ := 60

/-- Cat facial expression (`CatExpression` in cat.ts). -/
inductive Expression where
  | neutral
  | surprised
  | happy
  | worried
deriving DecidableEq, Repr

/-- What a cat landed on (`catData.landedOnBody`): the ground body, a body that
carries no `catData` (treated as unknown by `checkStickyCondition`), or a cat
body, of which only the center x-position is consulted by the overlap
calculation. -/
inductive LandedTarget where
  | ground
  | unknownBody
  | catBody (x : ℚ)
deriving DecidableEq, Repr

/-- Custom data stored on a cat body (`CatBodyData` in cat.ts), restricted to
the fields the verified claims consult. -/
structure CatData where
  expression : Expression
  stableTime : ℚ
  isSticky : Bool
  settlingStartTime : Option ℚ
  landedOnBody : Option LandedTarget
deriving DecidableEq, Repr

/-- A cat entity together with the physics-body fields the game reads
(`CatEntity` in cat.ts plus `body.position`, `body.velocity`, `body.angle`,
`body.isStatic`, and the `catData` bag stored on the body).  `bodyId`
identifies the body inside the physics world. -/
structure CatEntity where
  bodyId : ℕ
  x : ℚ
  y : ℚ
  vx : ℚ
  vy : ℚ
  angle : ℚ
  isStatic : Bool
  stableTime : ℚ
  expression : Expression
  catData : Option CatData
deriving DecidableEq, Repr

/-- Squared speed of a cat body; the source computes
`Math.sqrt(vx*vx + vy*vy)` and compares it against nonnegative thresholds,
which is equivalent to comparing this square against the squared threshold. -/
def speedSq (c : CatEntity) : ℚ := c.vx ^ 2 + c.vy ^ 2

/-- Body speed as the source computes it (`getBodySpeed` / `getCatSpeed`):
the euclidean norm of the velocity. -/
noncomputable def getBodySpeed (c : CatEntity) : ℝ :=
  Real.sqrt ((c.vx : ℝ) ^ 2 + (c.vy : ℝ) ^ 2)

/-- isCatStable from cat.ts: `stableTime >= STABILITY_TIME_REQUIRED`. -/
def isCatStable (c : CatEntity) : Bool :=
  decide (STABILITY_TIME_REQUIRED ≤ c.stableTime)

/-- isCatSticky from cat.ts: `catData?.isSticky ?? false`. -/
def isCatSticky (c : CatEntity) : Bool :=
  match c.catData with
  | some d => d.isSticky
  | none => false

/-- setCatExpression from cat.ts: writes the expression on the entity and on
the body's `catData` (when present). -/
def setCatExpression (c : CatEntity) (e : Expression) : CatEntity :=
  { c with expression := e, catData := c.catData.map fun d => { d with expression := e } }

/-- updateCatStability from cat.ts: accumulate `stableTime` while the speed is
strictly below `STABILITY_VELOCITY_THRESHOLD`, reset it to 0 otherwise; the
value is mirrored into `catData`.  (The source compares
`getCatSpeed(cat) < 0.5`, i.e. squared speed < 0.25.) -/
def updateCatStability (c : CatEntity) (deltaTimeMs : ℚ) : CatEntity :=
  if speedSq c < STABILITY_VELOCITY_THRESHOLD ^ 2 then
    let st := c.stableTime + deltaTimeMs
    { c with stableTime := st, catData := c.catData.map fun d => { d with stableTime := st } }
  else
    { c with stableTime := 0, catData := c.catData.map fun d => { d with stableTime := 0 } }

/-- calculateCatOverlap from the physics module: horizontal overlap of two cat
rectangles as a fraction of the cat width; a `null` target (ground landing)
yields 1.0 unconditionally. -/
def calculateCatOverlap (cat : CatEntity) (targetCat : Option CatEntity) : ℚ :=
  match targetCat with
  | none => 1.0
  | some target =>
    let catX := cat.x
    let targetX := target.x
    let catLeft := catX - CAT_WIDTH / 2
    let catRight := catX + CAT_WIDTH / 2
    let targetLeft := targetX - CAT_WIDTH / 2
    let targetRight := targetX + CAT_WIDTH / 2
    let overlapLeft := max catLeft targetLeft
    let overlapRight := min catRight targetRight
    let overlapWidth := max 0 (overlapRight - overlapLeft)
    overlapWidth / CAT_WIDTH

/-- The temporary entity `checkStickyCondition` builds from the landed-on
body's `catData` before calling `calculateCatOverlap`; only the body's
x-position is consulted by the overlap calculation. -/
def targetEntityFromBody (x : ℚ) : CatEntity :=
  { bodyId := 0, x := x, y := 0, vx := 0, vy := 0, angle := 0, isStatic := false,
    stableTime := 0, expression := Expression.neutral, catData := none }

/-- The overlap value `checkStickyCondition` computes for a landed-on body:
1.0 for the ground and for bodies without `catData`, otherwise
`calculateCatOverlap` against the target cat. -/
def stickyOverlap (cat : CatEntity) (target : LandedTarget) : ℚ :=
  match target with
  | LandedTarget.ground => 1.0
  | LandedTarget.unknownBody => 1.0
  | LandedTarget.catBody tx => calculateCatOverlap cat (some (targetEntityFromBody tx))

/-- checkStickyCondition from the physics module.  `now` stands for
`Date.now()` at the moment of the check.  Returns true when the cat (with
`catData`, not yet static/sticky, with a recorded landing) is slow enough,
has settled long enough, and overlaps its landing surface enough.
The speed test `getBodySpeed(cat) > STABILITY_VELOCITY_THRESHOLD` is
expressed on squares (see `getBodySpeed_gt_iff`). -/
def checkStickyCondition (cat : CatEntity) (now : ℚ) : Bool :=
  match cat.catData with
  | none => false
  | some catData =>
    if cat.isStatic || catData.isSticky then false
    else match catData.landedOnBody with
      | none => false
      | some landedOnBody =>
        if STABILITY_VELOCITY_THRESHOLD ^ 2 < speedSq cat then false
        else match catData.settlingStartTime with
          | none => false
          | some settlingStartTime =>
            if now - settlingStartTime < STICKY_SETTLE_TIME then false
            else decide (OVERLAP_THRESHOLD ≤ stickyOverlap cat landedOnBody)

/-- makeCatStatic from the physics module: reset the rotation to 0, make the
body static, and mark `catData.isSticky` (when `catData` is present). -/
def makeCatStatic (cat : CatEntity) : CatEntity :=
  { cat with
    angle := 0
    isStatic := true
    catData := cat.catData.map fun d => { d with isSticky := true } }

/-- startSettling from the physics module: when the cat has `catData` and no
settling timer is running, record the current time and the landed-on body. -/
def startSettling (cat : CatEntity) (landedOn : LandedTarget) (now : ℚ) : CatEntity :=
  match cat.catData with
  | none => cat
  | some d =>
    if d.settlingStartTime = none then
      { cat with
        catData := some { d with
          settlingStartTime := some now
          landedOnBody := some landedOn } }
    else cat

/-- resetSettling from the physics module. -/
def resetSettling (cat : CatEntity) : CatEntity :=
  { cat with catData := cat.catData.map fun d =>
      { d with settlingStartTime := none, landedOnBody := none } }

/-- Tower state from tower.ts. -/
structure TowerState where
  cats : List CatEntity
  pendulumCat : Option CatEntity
  stackedCount : ℕ
  isWobbling : Bool
  hasFallenCat : Bool
  difficultyLevel : ℕ
deriving DecidableEq, Repr

/-- createTowerState from tower.ts. -/
def createTowerState : TowerState :=
  { cats := []
    pendulumCat := none
    stackedCount := 0
    isWobbling := false
    hasFallenCat := false
    difficultyLevel := 0 }

/-- addCatToTower from tower.ts: append the cat and set its expression to
surprised (the source pushes the entity and then mutates it in place). -/
def addCatToTower (tower : TowerState) (cat : CatEntity) : TowerState :=
  { tower with cats := tower.cats ++ [setCatExpression cat Expression.surprised] }

/-- isBodyOffScreen from the physics module: below the death zone, or more
than the 100px margin beyond the left or right canvas edge. -/
def isBodyOffScreen (c : CatEntity) : Bool :=
  decide (DEATH_ZONE_Y < c.y) || decide (c.x < -100) || decide (CANVAS_WIDTH + 100 < c.x)

/-- Loop body of checkDifficultyThreshold (pendulum module): scan the
threshold table, remembering `i + 1` for the last index whose threshold the
stacked count reaches. -/
def checkDifficultyGo (stackedCats : ℕ) : List ℕ → ℕ → ℕ → ℕ
  | [], _, newLevel => newLevel
  | th :: rest, i, newLevel =>
    checkDifficultyGo stackedCats rest (i + 1) (if th ≤ stackedCats then i + 1 else newLevel)

/-- checkDifficultyThreshold from the pendulum module.  The current level
argument is accepted but (as in the source) never read. -/
def checkDifficultyThreshold (stackedCats _currentLevel : ℕ) (thresholds : List ℕ) : ℕ :=
  checkDifficultyGo stackedCats thresholds 0 0

/-- Per-cat body of the updateTower loop (tower.ts):
update stability, then derive the expression — happy when stable, worried
above the wobble threshold, otherwise neutral unless still surprised.
Returns the updated cat, whether it became newly stable this tick, and
whether it counted as wobbling.  (`speed > WOBBLE_VELOCITY_THRESHOLD` is
expressed on squares, see `getBodySpeed_gt_iff`.) -/
def towerCatStep (cat : CatEntity) (deltaTimeMs : ℚ) : CatEntity × Bool × Bool :=
  let wasStable := isCatStable cat
  let c1 := updateCatStability cat deltaTimeMs
  let nowStable := isCatStable c1
  let newlyStable := !wasStable && nowStable
  if nowStable then (setCatExpression c1 Expression.happy, newlyStable, false)
  else if WOBBLE_VELOCITY_THRESHOLD ^ 2 < speedSq c1 then
    (setCatExpression c1 Expression.worried, newlyStable, true)
  else if c1.expression ≠ Expression.surprised then
    (setCatExpression c1 Expression.neutral, newlyStable, false)
  else (c1, newlyStable, false)

/-- The stacked-count / difficulty bookkeeping of the updateTower loop: a
newly stable cat increments `stackedCount` and re-evaluates the difficulty
threshold (raising the level only when the new level is higher). -/
def bumpStacked (newlyStable : Bool) (stackedCount difficultyLevel : ℕ) : ℕ × ℕ :=
  if newlyStable then
    let sc := stackedCount + 1
    let newLevel := checkDifficultyThreshold sc difficultyLevel DIFFICULTY_THRESHOLDS
    (sc, if difficultyLevel < newLevel then newLevel else difficultyLevel)
  else (stackedCount, difficultyLevel)

/-- The updateTower loop over the cat list, threading `stackedCount` and
`difficultyLevel` exactly as the source mutates them (via `bumpStacked`),
with the wobble flags of all cats OR-ed together. -/
def towerTickCats (deltaTimeMs : ℚ) :
    List CatEntity → ℕ → ℕ → List CatEntity × ℕ × ℕ × Bool
  | [], stackedCount, difficultyLevel => ([], stackedCount, difficultyLevel, false)
  | cat :: rest, stackedCount, difficultyLevel =>
    let step := towerCatStep cat deltaTimeMs
    let bumped := bumpStacked step.2.1 stackedCount difficultyLevel
    let tail := towerTickCats deltaTimeMs rest bumped.1 bumped.2
    (step.1 :: tail.1, tail.2.1, tail.2.2.1, step.2.2 || tail.2.2.2)

/-- updateTower from tower.ts (classic mode), restricted to the tower state
it produces: if any cat is off screen the tick ends immediately with
`hasFallenCat` (game over) and no stability bookkeeping; otherwise every cat
is stepped and `stackedCount` / `difficultyLevel` / `isWobbling` updated. -/
def updateTowerState (tower : TowerState) (deltaTimeMs : ℚ) : TowerState :=
  if tower.cats.any isBodyOffScreen then { tower with hasFallenCat := true }
  else
    let r := towerTickCats deltaTimeMs tower.cats tower.stackedCount tower.difficultyLevel
    { tower with
      cats := r.1
      stackedCount := r.2.1
      difficultyLevel := r.2.2.1
      isWobbling := r.2.2.2 }

/-- removeCatFromTower from tower.ts, tower part: splice the cat out of the
cat list (the physics-world side is the erasure of its body id, covered in
`clearTowerWorld`-style world handling). -/
def removeCatFromTower (tower : TowerState) (cat : CatEntity) : TowerState :=
  { tower with cats := tower.cats.erase cat }

/-- clearTower from tower.ts: remove every tower cat's body (and the pendulum
cat's body when it is in the world) from the physics world, and reset all
tower fields.  The world is the list of body ids it contains. -/
def clearTowerWorld (tower : TowerState) (world : List ℕ) : TowerState × List ℕ :=
  let w1 := tower.cats.foldl (fun w c => w.erase c.bodyId) world
  let w2 := match tower.pendulumCat with
    | some pc => if pc.bodyId ∈ w1 then w1.erase pc.bodyId else w1
    | none => w1
  (createTowerState, w2)

/-- checkWinCondition from tower.ts: false for the empty tower; otherwise
true when some sticky-or-static cat's top edge (center y minus half the cat
height) is at or above the win line. -/
def checkWinCondition (tower : TowerState) : Bool :=
  if tower.cats.isEmpty then false
  else tower.cats.any fun cat =>
    if !isCatSticky cat && !cat.isStatic then false
    else decide (cat.y - CAT_HEIGHT / 2 ≤ WIN_LINE_Y)

/-- isClassicCatAligned from tower.ts: the first cat (null previous cat) is
always aligned; otherwise the horizontal offset to the previous cat must be
at most 80% of the cat width. -/
def isClassicCatAligned (newCat : CatEntity) (previousCat : Option CatEntity) : Bool :=
  match previousCat with
  | none => true
  | some prev => decide (|newCat.x - prev.x| ≤ CAT_WIDTH * 0.8)

/-- getPreviousCat from tower.ts: the most recently added cat, if any. -/
def getPreviousCat (tower : TowerState) : Option CatEntity :=
  tower.cats.getLast?

/-- pushTowerDown from tower.ts: move every tower cat down one cat height. -/
def pushTowerDown (tower : TowerState) : TowerState :=
  { tower with cats := tower.cats.map fun c => { c with y := c.y + CAT_HEIGHT } }

/-- hasTowerReachedGround from tower.ts: some cat's bottom edge is at or
below the given ground y. -/
def hasTowerReachedGround (tower : TowerState) (groundY : ℚ) : Bool :=
  if tower.cats.isEmpty then false
  else tower.cats.any fun c => decide (groundY ≤ c.y + CAT_HEIGHT / 2)

/-- Score state from scoring.ts. -/
structure ScoreState where
  score : ℚ
  highScore : ℚ
  showingPerfect : Bool
  perfectDisplayTime : ℚ
  perfectX : ℚ
  perfectY : ℚ
  reachTopBest : Option ℚ
deriving DecidableEq, Repr

/-- updateHighScore from scoring.ts: raise the high score when the current
score beats it; returns the new state and whether it was beaten. -/
def updateHighScore (scoreState : ScoreState) : ScoreState × Bool :=
  if scoreState.highScore < scoreState.score then
    ({ scoreState with highScore := scoreState.score }, true)
  else (scoreState, false)

/-- calculateLandingOffset from scoring.ts: absolute horizontal offset to the
cat below, or to the hard-coded ground center x = 360 for a ground landing. -/
def calculateLandingOffset (landingCat : CatEntity) (catBelow : Option CatEntity) : ℚ :=
  match catBelow with
  | some below => |landingCat.x - below.x|
  | none => |landingCat.x - 360|

/-- isPerfectLanding from scoring.ts: the offset is within 12.5% of the cat
width. -/
def isPerfectLanding (offset : ℚ) : Bool :=
  decide (offset ≤ CAT_WIDTH * PERFECT_THRESHOLD)

/-- awardStabilityPoints from scoring.ts: award the base point, check for a
perfect landing (bonus points and the "Perfect!" display), then update the
high score.  Returns the new score state, the points awarded, and whether
the landing was perfect. -/
def awardStabilityPoints (scoreState : ScoreState) (stableCat : CatEntity)
    (catBelow : Option CatEntity) : ScoreState × ℚ × Bool :=
  let ss1 := { scoreState with score := scoreState.score + POINTS_PER_STACK }
  let offset := calculateLandingOffset stableCat catBelow
  let isPerfect := isPerfectLanding offset
  let ss2 :=
    if isPerfect then
      { ss1 with
        score := ss1.score + PERFECT_BONUS
        showingPerfect := true
        perfectDisplayTime := PERFECT_DISPLAY_DURATION
        perfectX := stableCat.x
        perfectY := stableCat.y - CAT_WIDTH / 2 - 30 }
    else ss1
  let pointsAwarded := if isPerfect then POINTS_PER_STACK + PERFECT_BONUS else POINTS_PER_STACK
  ((updateHighScore ss2).1, pointsAwarded, isPerfect)

/-- resetScore from scoring.ts: clear the round score and the perfect
display; the high score and the reach-the-top best are preserved. -/
def resetScore (scoreState : ScoreState) : ScoreState :=
  { scoreState with
    score := 0
    showingPerfect := false
    perfectDisplayTime := 0
    perfectX := 0
    perfectY := 0 }

/-- Pendulum state from the pendulum module.  All stored fields are
rational-valued (the transcendental sine appears only in the position
calculation). -/
structure PendulumState where
  centerX : ℚ
  y : ℚ
  amplitude : ℚ
  basePeriod : ℚ
  speedMultiplier : ℚ
  difficultyLevel : ℕ
  accumulatedTime : ℚ
deriving DecidableEq, Repr

/-- createPendulum from the pendulum module. -/
def createPendulum : PendulumState :=
  { centerX := CANVAS_WIDTH / 2
    y := PENDULUM_Y
    amplitude := CANVAS_WIDTH * SWING_AMPLITUDE
    basePeriod := SWING_PERIOD
    speedMultiplier := 1.0
    difficultyLevel := 0
    accumulatedTime := 0 }

/-- A pendulum position (x, y), real-valued because of the sine. -/
structure PendulumPosition where
  x : ℝ
  y : ℝ

/-- getPendulumPosition from the pendulum module:
`x = centerX + amplitude *.sin(omega * time)` with
`omega = 2π / (basePeriod / speedMultiplier)`. -/
noncomputable def getPendulumPosition (pendulum : PendulumState) (time : ℚ) : PendulumPosition :=
  let effectivePeriod : ℚ := pendulum.basePeriod / pendulum.speedMultiplier
  let omega : ℝ := 2 * Real.pi / (effectivePeriod : ℝ)
  { x := (pendulum.centerX : ℝ) + (pendulum.amplitude : ℝ) * Real.sin (omega * (time : ℝ))
    y := (pendulum.y : ℝ) }

/-- getCurrentPendulumPosition from the pendulum module. -/
noncomputable def getCurrentPendulumPosition (pendulum : PendulumState) : PendulumPosition :=
  getPendulumPosition pendulum pendulum.accumulatedTime

/-- updatePendulum from the pendulum module: accumulate the frame delta,
capped at 33 ms. -/
def updatePendulum (pendulum : PendulumState) (deltaTimeMs : ℚ) : PendulumState :=
  { pendulum with accumulatedTime := pendulum.accumulatedTime + min deltaTimeMs 33 }

/-- increasePendulumDifficulty from the pendulum module: set the multiplier
to `(1 + SPEED_INCREASE_FACTOR) ^ newLevel` and, when it changed, rescale the
accumulated time by `oldMultiplier / newMultiplier` so the sine phase is
unchanged. -/
def increasePendulumDifficulty (pendulum : PendulumState) (newLevel : ℕ) : PendulumState :=
  let oldSpeedMultiplier := pendulum.speedMultiplier
  let newSpeedMultiplier := (1 + SPEED_INCREASE_FACTOR) ^ newLevel
  let accumulated :=
    if newSpeedMultiplier ≠ oldSpeedMultiplier then
      pendulum.accumulatedTime * (oldSpeedMultiplier / newSpeedMultiplier)
    else pendulum.accumulatedTime
  { pendulum with
    accumulatedTime := accumulated
    difficultyLevel := newLevel
    speedMultiplier := newSpeedMultiplier }

/-- resetPendulum from the pendulum module: restore base amplitude, unit
speed, level 0 and zero accumulated time (center, y and period are kept). -/
def resetPendulum (pendulum : PendulumState) : PendulumState :=
  { pendulum with
    amplitude := CANVAS_WIDTH * SWING_AMPLITUDE
    speedMultiplier := 1.0
    difficultyLevel := 0
    accumulatedTime := 0 }

/-- Game state types from the state machine module. -/
inductive GameStateType where
  | start
  | modeSelect
  | playing
  | gameover
  | win
deriving DecidableEq, Repr

/-- Game modes from the state machine module. -/
inductive GameMode where
  | classic
  | reachTheTop
deriving DecidableEq, Repr

/-- The complete game state (`GameState` in the state machine module). -/
structure GameStateM where
  currentState : GameStateType
  hasStarted : Bool
  scoreState : ScoreState
  towerState : TowerState
  pendulumState : PendulumState
  beatHighScore : Bool
  gameMode : GameMode
  catsDropped : ℕ
  catsLost : ℕ
deriving DecidableEq, Repr

/-- transitionToPlaying from the state machine module (the input handler is
outside the model). -/
def transitionToPlaying (gameState : GameStateM) : GameStateM :=
  { gameState with currentState := GameStateType.playing, hasStarted := true }

/-- transitionToGameOver from the state machine module: record whether the
high score was beaten, then enter the gameover state. -/
def transitionToGameOver (gameState : GameStateM) : GameStateM :=
  let hs := updateHighScore gameState.scoreState
  { gameState with
    scoreState := hs.1
    beatHighScore := hs.2
    currentState := GameStateType.gameover }

/-- restartGame from the state machine module: clear the tower (removing all
its physics bodies from the world), reset the score (high scores persist),
install a fresh tower state, reset the pendulum, clear the per-round
counters, and transition to playing.  The world is the list of body ids. -/
def restartGame (gameState : GameStateM) (world : List ℕ) : GameStateM × List ℕ :=
  let cleared := clearTowerWorld gameState.towerState world
  let gs1 :=
    { gameState with
      scoreState := resetScore gameState.scoreState
      towerState := createTowerState
      pendulumState := resetPendulum gameState.pendulumState
      beatHighScore := false
      catsDropped := 0
      catsLost := 0 }
  (transitionToPlaying gs1, cleared.2)

/-- The classic-mode branch of handleDrop (the game hook): the newly created
cat's body has just been added to the world; check alignment against the
previous (most recently dropped) cat; when aligned, push the tower down, set
the happy expression, add the cat to the tower and check whether the tower
reached the ground; when misaligned, remove the new body from the world and
transition to game over. -/
def handleDropClassic (gameState : GameStateM) (world : List ℕ) (cat : CatEntity) :
    GameStateM × List ℕ :=
  let world1 := world ++ [cat.bodyId]
  let previousCat := getPreviousCat gameState.towerState
  if isClassicCatAligned cat previousCat then
    let tower1 := pushTowerDown gameState.towerState
    let cat1 := setCatExpression cat Expression.happy
    let tower2 := addCatToTower tower1 cat1
    let gs1 := { gameState with towerState := tower2 }
    let groundSurface := GROUND_Y - GROUND_HEIGHT / 2
    if hasTowerReachedGround tower2 groundSurface then
      (transitionToGameOver gs1, world1)
    else (gs1, world1)
  else
    (transitionToGameOver gameState, world1.erase cat.bodyId)

/-- A physics step may move a body and change its velocity and angle, but the
gameplay-owned fields (id, stability timer, expression, static flag and the
`catData` bag) are untouched by the engine between tower updates. -/
def physicsStep (old new : CatEntity) : Prop :=
  new.bodyId = old.bodyId ∧ new.isStatic = old.isStatic ∧
  new.stableTime = old.stableTime ∧ new.expression = old.expression ∧
  new.catData = old.catData

/-- Tower states reachable from `createTowerState` by the tower operations
named in the specification: adding a dropped cat, classic-mode update ticks
(with the physics engine freely changing positions and velocities in
between), removing a cat, and clearing the tower. -/
inductive TowerReachable : TowerState → Prop where
  | init : TowerReachable createTowerState
  | add (t : TowerState) (c : CatEntity) :
      TowerReachable t → TowerReachable (addCatToTower t c)
  | update (t : TowerState) (deltaTimeMs : ℚ) (hdt : 0 ≤ deltaTimeMs) :
      TowerReachable t → TowerReachable (updateTowerState t deltaTimeMs)
  | remove (t : TowerState) (c : CatEntity) :
      TowerReachable t → TowerReachable (removeCatFromTower t c)
  | clear (t : TowerState) (w : List ℕ) :
      TowerReachable t → TowerReachable (clearTowerWorld t w).1
  | physics (t : TowerState) (cats : List CatEntity) :
      TowerReachable t → List.Forall₂ physicsStep t.cats cats →
      TowerReachable { t with cats := cats }

/-- A calm physics step: additionally, a cat that has already accumulated the
required stable time keeps its speed strictly below the stability threshold
(stable cats do not get knocked back into motion). -/
def calmStep (old new : CatEntity) : Prop :=
  physicsStep old new ∧
  (isCatStable old = true → speedSq new < STABILITY_VELOCITY_THRESHOLD ^ 2)

/-- Tower states reachable as in `TowerReachable` but without cat removal and
with only calm physics steps. -/
inductive TowerReachableCalm : TowerState → Prop where
  | init : TowerReachableCalm createTowerState
  | add (t : TowerState) (c : CatEntity) :
      TowerReachableCalm t → TowerReachableCalm (addCatToTower t c)
  | update (t : TowerState) (deltaTimeMs : ℚ) (hdt : 0 ≤ deltaTimeMs) :
      TowerReachableCalm t → TowerReachableCalm (updateTowerState t deltaTimeMs)
  | clear (t : TowerState) (w : List ℕ) :
      TowerReachableCalm t → TowerReachableCalm (clearTowerWorld t w).1
  | physics (t : TowerState) (cats : List CatEntity) :
      TowerReachableCalm t → List.Forall₂ calmStep t.cats cats →
      TowerReachableCalm { t with cats := cats }

/-- A cat that is stable and slow: it has accumulated the required stable
time and its speed is strictly below the stability threshold.  Such cats are
the ones `updateTower` can have counted into `stackedCount`. -/
def stableSlow (c : CatEntity) : Bool :=
  isCatStable c && decide (speedSq c < STABILITY_VELOCITY_THRESHOLD ^ 2)

/-- Number of stable-and-slow cats in a list. -/
def stableSlowCount (cats : List CatEntity) : ℕ :=
  (cats.filter stableSlow).length

/-- Cat used by concrete witnesses and counterexamples: at rest at the tower
center, freshly dropped (no stability accumulated). -/
def calmCatW : CatEntity :=
  { bodyId := 1, x := 360, y := 600, vx := 0, vy := 0, angle := 0, isStatic := false,
    stableTime := 0, expression := Expression.neutral, catData := none }

/-- Concrete cat data for witnesses: a recorded landing on a cat body
centered at x = 396, settling since t = 1000 ms, not yet sticky. -/
def wCatData : CatData :=
  { expression := Expression.neutral, stableTime := 0, isSticky := false,
    settlingStartTime := some 1000, landedOnBody := some (LandedTarget.catBody 396) }

/-- Concrete settling cat for witnesses: at rest at x = 360 over the cat at
x = 396 recorded in `wCatData` (horizontal overlap exactly 55% of the cat
width). -/
def wStickyCat : CatEntity :=
  { bodyId := 3, x := 360, y := 700, vx := 0, vy := 0, angle := 0, isStatic := false,
    stableTime := 0, expression := Expression.neutral, catData := some wCatData }

/-- Concrete settled cat for witnesses: landed at an angle, carrying cat
data. -/
def wAngledCat : CatEntity :=
  { bodyId := 4, x := 360, y := 700, vx := 0, vy := 0, angle := 7, isStatic := false,
    stableTime := 0, expression := Expression.neutral, catData := some wCatData }

/-- Concrete cat whose speed is exactly the stability threshold 0.5, with
100 ms of stability already accumulated. -/
def cHalfCat : CatEntity :=
  { bodyId := 5, x := 360, y := 700, vx := 0.5, vy := 0, angle := 0, isStatic := false,
    stableTime := 100, expression := Expression.neutral, catData := none }

/-- Concrete cat whose speed is exactly the wobble threshold 2.0. -/
def cTwoCat : CatEntity :=
  { bodyId := 6, x := 360, y := 700, vx := 2.0, vy := 0, angle := 0, isStatic := false,
    stableTime := 0, expression := Expression.neutral, catData := none }

/-- Concrete score state for witnesses: mid-game score 5, persisted high
score 7 and reach-the-top best 4. -/
def wScore : ScoreState :=
  { score := 5, highScore := 7, showingPerfect := false, perfectDisplayTime := 0,
    perfectX := 0, perfectY := 0, reachTopBest := some 4 }

/-- Concrete mid-game state for witnesses: one tower cat (body id 1), a
sped-up pendulum, three cats dropped and one lost. -/
def wGameState : GameStateM :=
  { currentState := GameStateType.gameover
    hasStarted := true
    scoreState := wScore
    towerState := { createTowerState with cats := [calmCatW] }
    pendulumState := { createPendulum with accumulatedTime := 500, speedMultiplier := 2 }
    beatHighScore := false
    gameMode := GameMode.classic
    catsDropped := 3
    catsLost := 1 }

/-- Concrete playing-state variant of `wGameState` for the drop witness. -/
def wGameStatePlaying : GameStateM :=
  { wGameState with currentState := GameStateType.playing }

/-- Concrete newly dropped cat for the drop witness: body id 2 at x = 450,
90 px away from the previous cat at x = 360 (beyond the 64 px alignment
tolerance). -/
def wNewCat : CatEntity :=
  { bodyId := 2, x := 450, y := 100, vx := 0, vy := 0, angle := 0, isStatic := true,
    stableTime := 0, expression := Expression.neutral, catData := none }

/-- Comparing the speed with a nonnegative threshold is the same as comparing
the squared speed with the squared threshold. -/
theorem getBodySpeed_le_iff (c : CatEntity) (q : ℚ) (hq : 0 ≤ q) :
    getBodySpeed c ≤ (q : ℝ) ↔ speedSq c ≤ q ^ 2 := by
  unfold getBodySpeed
  rw [Real.sqrt_le_iff]
  constructor
  · rintro ⟨-, h⟩
    have h2 : ((speedSq c : ℚ) : ℝ) ≤ ((q ^ 2 : ℚ) : ℝ) := by
      push_cast [speedSq]
      linarith
    exact_mod_cast h2
  · intro h
    refine ⟨by exact_mod_cast hq, ?_⟩
    have h2 : ((speedSq c : ℚ) : ℝ) ≤ ((q ^ 2 : ℚ) : ℝ) := by exact_mod_cast h
    push_cast [speedSq] at h2
    linarith

/-- Strict version of `getBodySpeed_le_iff`. -/
theorem getBodySpeed_gt_iff (c : CatEntity) (q : ℚ) (hq : 0 ≤ q) :
    (q : ℝ) < getBodySpeed c ↔ q ^ 2 < speedSq c := by
  rw [← not_le, ← not_le, getBodySpeed_le_iff c q hq]

/-- Closed form of the cat-on-cat overlap. -/
theorem calculateCatOverlap_some (cat target : CatEntity) :
    calculateCatOverlap cat (some target) =
      max 0 (min (cat.x + 40) (target.x + 40) - max (cat.x - 40) (target.x - 40)) / 80 := by
  simp only [calculateCatOverlap]
  norm_num [CAT_WIDTH]

/-- C7: `calculateCatOverlap` with a null target (ground landing) returns
exactly 1.0; for every cat-on-cat pair the result lies in [0, 1]; and the
result is invariant under horizontally reflecting both cats' x-coordinates
across any common mirror axis m (the map x ↦ 2m − x; the axis m = 0 is
x ↦ −x). -/
theorem calculateCatOverlap_props :
    (∀ cat, calculateCatOverlap cat none = 1.0) ∧
    (∀ cat target, 0 ≤ calculateCatOverlap cat (some target) ∧
      calculateCatOverlap cat (some target) ≤ 1) ∧
    (∀ cat target (m : ℚ),
      calculateCatOverlap { cat with x := 2 * m - cat.x }
          (some { target with x := 2 * m - target.x }) =
        calculateCatOverlap cat (some target)) := by
  refine ⟨fun cat => rfl, fun cat target => ?_, fun cat target m => ?_⟩
  · rw [calculateCatOverlap_some]
    constructor
    · positivity
    · rw [div_le_one (by norm_num)]
      refine max_le (by norm_num) ?_
      have h1 : min (cat.x + 40) (target.x + 40) ≤ cat.x + 40 := min_le_left _ _
      have h2 : cat.x - 40 ≤ max (cat.x - 40) (target.x - 40) := le_max_left _ _
      linarith
  · rw [calculateCatOverlap_some, calculateCatOverlap_some]
    dsimp only
    rcases le_total cat.x target.x with h | h
    · rw [min_eq_right (show (2 : ℚ) * m - target.x + 40 ≤ 2 * m - cat.x + 40 by linarith),
        max_eq_left (show (2 : ℚ) * m - target.x - 40 ≤ 2 * m - cat.x - 40 by linarith),
        min_eq_left (show cat.x + 40 ≤ target.x + (40 : ℚ) by linarith),
        max_eq_right (show cat.x - 40 ≤ target.x - (40 : ℚ) by linarith)]
      congr 2
      ring
    · rw [min_eq_left (show (2 : ℚ) * m - cat.x + 40 ≤ 2 * m - target.x + 40 by linarith),
        max_eq_right (show (2 : ℚ) * m - cat.x - 40 ≤ 2 * m - target.x - 40 by linarith),
        min_eq_right (show target.x + 40 ≤ cat.x + (40 : ℚ) by linarith),
        max_eq_left (show target.x - 40 ≤ cat.x - (40 : ℚ) by linarith)]
      congr 2
      ring

/-- C10: whenever a cat is frozen via `makeCatStatic`, its rotation angle is
set to exactly 0 and the body is made static, and its cat data is marked
sticky — so every cat that becomes sticky is axis-aligned from the moment it
freezes, regardless of the angle at which it settled. -/
theorem makeCatStatic_spec (cat : CatEntity) (d : CatData) (hdata : cat.catData = some d) :
    (makeCatStatic cat).angle = 0 ∧ (makeCatStatic cat).isStatic = true ∧
      isCatSticky (makeCatStatic cat) = true := by
  refine ⟨rfl, rfl, ?_⟩
  simp [makeCatStatic, isCatSticky, hdata]

/-- Witness for `makeCatStatic_spec`: the settled cat `wAngledCat` (angle 7)
carries cat data, and freezing it yields angle 0, a static body and the
sticky mark. -/
theorem makeCatStatic_spec_witness :
    wAngledCat.catData = some wCatData ∧
      ((makeCatStatic wAngledCat).angle = 0 ∧ (makeCatStatic wAngledCat).isStatic = true ∧
        isCatSticky (makeCatStatic wAngledCat) = true) :=
  ⟨rfl, makeCatStatic_spec wAngledCat wCatData rfl⟩

/-- C2: `checkWinCondition` returns true exactly when some cat that is sticky
or physically static has its top edge (center y minus half the cat height) at
or above the win line; in particular it is false for the empty tower and for
any tower whose cats are all non-sticky and non-static, regardless of their
positions. -/
theorem checkWinCondition_iff (tower : TowerState) :
    checkWinCondition tower = true ↔
      ∃ cat ∈ tower.cats, (isCatSticky cat = true ∨ cat.isStatic = true) ∧
        cat.y - CAT_HEIGHT / 2 ≤ WIN_LINE_Y := by
  unfold checkWinCondition
  by_cases hempty : tower.cats.isEmpty
  · rw [List.isEmpty_iff] at hempty
    simp [hempty]
  · simp only [hempty, Bool.false_eq_true, if_false, List.any_eq_true]
    refine exists_congr fun cat => and_congr_right fun _ => ?_
    cases hs : isCatSticky cat <;> cases hst : cat.isStatic <;> simp [hs, hst]

/-- C1: for a reach-the-top cat with a recorded landing (`settlingStartTime`
and `landedOnBody` set) that is not yet static or sticky,
`checkStickyCondition` at time `now` returns true exactly when all three
hold: the body speed does not exceed the stability threshold 0.5, the
elapsed settling time is at least the 300 ms settle time, and the horizontal
overlap with the landed-on surface is at least 0.55 of the cat width.  The
boundary cases are inclusive: overlap exactly 0.55 with settling time exactly
300 ms is sticky, overlap 0.549 or settling time 299 ms is not. -/
theorem checkStickyCondition_iff (cat : CatEntity) (d : CatData) (t0 : ℚ)
    (target : LandedTarget) (now : ℚ)
    (hdata : cat.catData = some d) (hstatic : cat.isStatic = false)
    (hsticky : d.isSticky = false) (hland : d.landedOnBody = some target)
    (hsettle : d.settlingStartTime = some t0) :
    checkStickyCondition cat now = true ↔
      (getBodySpeed cat ≤ (STABILITY_VELOCITY_THRESHOLD : ℝ) ∧
        STICKY_SETTLE_TIME ≤ now - t0 ∧
        OVERLAP_THRESHOLD ≤ stickyOverlap cat target) := by
  rw [getBodySpeed_le_iff cat STABILITY_VELOCITY_THRESHOLD
    (by norm_num [STABILITY_VELOCITY_THRESHOLD])]
  simp only [checkStickyCondition, hdata, hstatic, hsticky, hland, hsettle,
    Bool.or_self, Bool.false_eq_true, if_false]
  split_ifs with h1 h2
  · simp only [Bool.false_eq_true, false_iff]
    rintro ⟨hle, -, -⟩
    exact absurd h1 (not_lt.mpr hle)
  · simp only [Bool.false_eq_true, false_iff]
    rintro ⟨-, hle, -⟩
    exact absurd h2 (not_lt.mpr hle)
  · push_neg at h1 h2
    simp [h1, h2]

/-- Witness for `checkStickyCondition_iff`: the settling cat `wStickyCat`
(landed on a cat at x = 396, overlap exactly 0.55, settling since t = 1000)
checked at `now = 1300` (elapsed exactly 300 ms) becomes sticky. -/
theorem checkStickyCondition_iff_witness :
    wStickyCat.catData = some wCatData ∧ wStickyCat.isStatic = false ∧
      wCatData.isSticky = false ∧
      wCatData.landedOnBody = some (LandedTarget.catBody 396) ∧
      wCatData.settlingStartTime = some 1000 ∧
      checkStickyCondition wStickyCat 1300 = true :=
  ⟨rfl, rfl, rfl, rfl, rfl,
    (checkStickyCondition_iff wStickyCat wCatData 1000 (LandedTarget.catBody 396) 1300
        rfl rfl rfl rfl rfl).mpr
      ⟨(getBodySpeed_le_iff wStickyCat STABILITY_VELOCITY_THRESHOLD
          (by norm_num [STABILITY_VELOCITY_THRESHOLD])).mpr
          (by norm_num [speedSq, wStickyCat, STABILITY_VELOCITY_THRESHOLD]),
        by norm_num [STICKY_SETTLE_TIME],
        by norm_num [stickyOverlap, calculateCatOverlap_some, targetEntityFromBody,
          wStickyCat, OVERLAP_THRESHOLD]⟩⟩

/-- updateHighScore never changes the current score. -/
theorem updateHighScore_score (ss : ScoreState) : (updateHighScore ss).1.score = ss.score := by
  unfold updateHighScore
  split_ifs <;> rfl

/-- updateHighScore never changes the reach-the-top best. -/
theorem updateHighScore_reachTopBest (ss : ScoreState) :
    (updateHighScore ss).1.reachTopBest = ss.reachTopBest := by
  unfold updateHighScore
  split_ifs <;> rfl

/-- C6: on each newly stable classic cat, `awardStabilityPoints` awards
exactly 1 base point; the landing offset is |catX − referenceX| where the
reference is the cat below or the play-area center x = 360 for a ground
landing; the +2 perfect bonus is awarded exactly when the offset is at most
0.125 of the cat width.  In particular a cat at x = 360 on the ground scores
3 points with offset 0, and a cat at x = 450 over a cat centered at x = 360
scores only 1 point. -/
theorem awardStabilityPoints_spec :
    (∀ cat below, calculateLandingOffset cat (some below) = |cat.x - below.x|) ∧
    (∀ cat, calculateLandingOffset cat none = |cat.x - 360|) ∧
    (∀ ss cat below,
      (awardStabilityPoints ss cat below).2.1 =
        POINTS_PER_STACK +
          (if calculateLandingOffset cat below ≤ CAT_WIDTH * PERFECT_THRESHOLD
            then PERFECT_BONUS else 0) ∧
      (awardStabilityPoints ss cat below).1.score =
        ss.score + POINTS_PER_STACK +
          (if calculateLandingOffset cat below ≤ CAT_WIDTH * PERFECT_THRESHOLD
            then PERFECT_BONUS else 0) ∧
      ((awardStabilityPoints ss cat below).2.2 = true ↔
        calculateLandingOffset cat below ≤ CAT_WIDTH * PERFECT_THRESHOLD)) ∧
    (calculateLandingOffset calmCatW none = 0 ∧
      (awardStabilityPoints wScore calmCatW none).2.1 = 3) ∧
    (awardStabilityPoints wScore wNewCat (some calmCatW)).2.1 = 1 := by
  refine ⟨fun cat below => rfl, fun cat => rfl, fun ss cat below => ?_, ?_, ?_⟩
  · by_cases hp : calculateLandingOffset cat below ≤ CAT_WIDTH * PERFECT_THRESHOLD
    · have hbt : isPerfectLanding (calculateLandingOffset cat below) = true := by
        simp [isPerfectLanding, hp]
      refine ⟨?_, ?_, ?_⟩
      · simp [awardStabilityPoints, hbt, hp]
      · simp only [awardStabilityPoints, hbt, if_true, updateHighScore_score]
        simp [hp]
      · simp [awardStabilityPoints, hbt, hp]
    · have hbt : isPerfectLanding (calculateLandingOffset cat below) = false := by
        simp [isPerfectLanding, hp]
      refine ⟨?_, ?_, ?_⟩
      · simp [awardStabilityPoints, hbt, hp]
      · simp only [awardStabilityPoints, hbt, if_false, updateHighScore_score]
        simp [hp]
      · simp [awardStabilityPoints, hbt, hp]
  · constructor
    · norm_num [calculateLandingOffset, calmCatW]
    · norm_num [awardStabilityPoints, isPerfectLanding, calculateLandingOffset, calmCatW,
        CAT_WIDTH, PERFECT_THRESHOLD, POINTS_PER_STACK, PERFECT_BONUS]
  · norm_num [awardStabilityPoints, isPerfectLanding, calculateLandingOffset, calmCatW,
      wNewCat, CAT_WIDTH, PERFECT_THRESHOLD, POINTS_PER_STACK, PERFECT_BONUS]

/-- C3: for every pendulum state (with nonzero base period and speed
multiplier) and every new difficulty level, `increasePendulumDifficulty` sets
the speed multiplier to `(1 + 0.175) ^ newLevel`, rescales the accumulated
time by `oldMultiplier / newMultiplier` whenever the multiplier changed, and
the pendulum position computed immediately before the call equals the
position computed immediately after it — the sine evaluates at the same
phase, so the pendulum never teleports. -/
theorem increasePendulumDifficulty_phase_continuous (p : PendulumState) (newLevel : ℕ)
    (hbp : p.basePeriod ≠ 0) (hsm : p.speedMultiplier ≠ 0) :
    (increasePendulumDifficulty p newLevel).speedMultiplier =
        (1 + SPEED_INCREASE_FACTOR) ^ newLevel ∧
      ((1 + SPEED_INCREASE_FACTOR) ^ newLevel ≠ p.speedMultiplier →
        (increasePendulumDifficulty p newLevel).accumulatedTime =
          p.accumulatedTime * (p.speedMultiplier / (1 + SPEED_INCREASE_FACTOR) ^ newLevel)) ∧
      getCurrentPendulumPosition (increasePendulumDifficulty p newLevel) =
        getCurrentPendulumPosition p := by
  have hnew : ((1 + SPEED_INCREASE_FACTOR) ^ newLevel : ℚ) ≠ 0 :=
    pow_ne_zero _ (by norm_num [SPEED_INCREASE_FACTOR])
  refine ⟨rfl, fun hne => by simp [increasePendulumDifficulty, hne], ?_⟩
  by_cases hne : ((1 + SPEED_INCREASE_FACTOR) ^ newLevel : ℚ) = p.speedMultiplier
  · unfold getCurrentPendulumPosition getPendulumPosition increasePendulumDifficulty
    simp [hne]
  · unfold getCurrentPendulumPosition getPendulumPosition increasePendulumDifficulty
    simp only [ne_eq, hne, not_false_eq_true, if_true, PendulumPosition.mk.injEq]
    refine ⟨?_, trivial⟩
    have hbpR : (p.basePeriod : ℝ) ≠ 0 := by exact_mod_cast hbp
    have hsmR : (p.speedMultiplier : ℝ) ≠ 0 := by exact_mod_cast hsm
    have hnewR : ((1 : ℝ) + (SPEED_INCREASE_FACTOR : ℝ)) ^ newLevel ≠ 0 := by
      have := hnew
      intro hzero
      apply this
      exact_mod_cast hzero
    have harg :
        2 * Real.pi / ((p.basePeriod / (1 + SPEED_INCREASE_FACTOR) ^ newLevel : ℚ) : ℝ) *
            ((p.accumulatedTime *
              (p.speedMultiplier / (1 + SPEED_INCREASE_FACTOR) ^ newLevel) : ℚ) : ℝ) =
          2 * Real.pi / ((p.basePeriod / p.speedMultiplier : ℚ) : ℝ) *
            ((p.accumulatedTime : ℚ) : ℝ) := by
      push_cast
      field_simp [hbpR, hsmR, hnewR]
      ring
    rw [harg]

/-- Witness for `increasePendulumDifficulty_phase_continuous`: raising the
fresh pendulum to difficulty level 3 keeps the pendulum position unchanged. -/
theorem increasePendulumDifficulty_phase_continuous_witness :
    createPendulum.basePeriod ≠ 0 ∧ createPendulum.speedMultiplier ≠ 0 ∧
      getCurrentPendulumPosition (increasePendulumDifficulty createPendulum 3) =
        getCurrentPendulumPosition createPendulum :=
  ⟨by norm_num [createPendulum, SWING_PERIOD],
    by norm_num [createPendulum],
    (increasePendulumDifficulty_phase_continuous createPendulum 3
        (by norm_num [createPendulum, SWING_PERIOD])
        (by norm_num [createPendulum])).2.2⟩

/-- Erasing ids from a list never introduces a member. -/
theorem not_mem_foldl_erase {x : ℕ} (cats : List CatEntity) (world : List ℕ)
    (hx : x ∉ world) : x ∉ cats.foldl (fun w c => w.erase c.bodyId) world := by
  induction cats generalizing world with
  | nil => exact hx
  | cons hd tl ih =>
    exact ih (world.erase hd.bodyId) fun h => hx (List.mem_of_mem_erase h)

/-- Erasing ids from a duplicate-free list keeps it duplicate-free. -/
theorem nodup_foldl_erase (cats : List CatEntity) (world : List ℕ)
    (hw : world.Nodup) : (cats.foldl (fun w c => w.erase c.bodyId) world).Nodup := by
  induction cats generalizing world with
  | nil => exact hw
  | cons hd tl ih => exact ih (world.erase hd.bodyId) (hw.erase hd.bodyId)

/-- After folding the erasures of every cat's body id over a duplicate-free
world, none of those body ids is in the world any more. -/
theorem cats_not_mem_foldl_erase (cats : List CatEntity) (world : List ℕ)
    (hw : world.Nodup) :
    ∀ c ∈ cats, c.bodyId ∉ cats.foldl (fun w c => w.erase c.bodyId) world := by
  induction cats generalizing world with
  | nil => intro c hc; cases hc
  | cons hd tl ih =>
    intro c hc
    rcases List.mem_cons.mp hc with rfl | hmem
    · exact not_mem_foldl_erase tl (world.erase c.bodyId) (hw.not_mem_erase)
    · exact ih (world.erase hd.bodyId) (hw.erase hd.bodyId) c hmem

/-- C4: `restartGame` removes all tower cats' bodies from the physics world,
resets the score and the cats-dropped / cats-lost counters to 0, resets the
pendulum (unit speed multiplier, level 0, zero accumulated time, base
amplitude), leaves the high score and the reach-the-top best unchanged, and
re-enters the playing state. -/
theorem restartGame_spec (gs : GameStateM) (world : List ℕ) (hw : world.Nodup) :
    (∀ c ∈ gs.towerState.cats, c.bodyId ∉ (restartGame gs world).2) ∧
      (restartGame gs world).1.scoreState.score = 0 ∧
      (restartGame gs world).1.catsDropped = 0 ∧
      (restartGame gs world).1.catsLost = 0 ∧
      (restartGame gs world).1.pendulumState.speedMultiplier = 1 ∧
      (restartGame gs world).1.pendulumState.difficultyLevel = 0 ∧
      (restartGame gs world).1.pendulumState.accumulatedTime = 0 ∧
      (restartGame gs world).1.pendulumState.amplitude = CANVAS_WIDTH * SWING_AMPLITUDE ∧
      (restartGame gs world).1.scoreState.highScore = gs.scoreState.highScore ∧
      (restartGame gs world).1.scoreState.reachTopBest = gs.scoreState.reachTopBest ∧
      (restartGame gs world).1.currentState = GameStateType.playing ∧
      (restartGame gs world).1.towerState = createTowerState := by
  refine ⟨?_, rfl, rfl, rfl,
    by norm_num [restartGame, transitionToPlaying, resetPendulum],
    rfl, rfl, rfl, rfl, rfl, rfl, rfl⟩
  intro c hc
  show c.bodyId ∉ (clearTowerWorld gs.towerState world).2
  unfold clearTowerWorld
  have hbase := cats_not_mem_foldl_erase gs.towerState.cats world hw c hc
  rcases hpc : gs.towerState.pendulumCat with _ | pc
  · simpa using hbase
  · simp only
    split_ifs with hmem
    · exact fun h => hbase (List.mem_of_mem_erase h)
    · simpa using hbase

/-- Witness for `restartGame_spec`: restarting the concrete mid-game state
`wGameState` (one tower cat with body id 1) against the world [1, 2]. -/
theorem restartGame_spec_witness :
    ([1, 2] : List ℕ).Nodup ∧
      (∀ c ∈ wGameState.towerState.cats, c.bodyId ∉ (restartGame wGameState [1, 2]).2) ∧
      (restartGame wGameState [1, 2]).1.scoreState.score = 0 ∧
      (restartGame wGameState [1, 2]).1.scoreState.highScore =
        wGameState.scoreState.highScore :=
  have h := restartGame_spec wGameState [1, 2] (by decide)
  ⟨by decide, h.1, h.2.1, h.2.2.2.2.2.2.2.2.1⟩

/-- C5: in classic mode the first cat is always aligned; a later cat is
aligned exactly when its horizontal offset from the most recently dropped cat
(the last element of the tower's cat list) is at most 0.8 of the cat width;
and on a misaligned drop the new cat's body is removed from the physics
world (the world returns to its pre-drop contents), the tower's cat list is
left unchanged, and the game transitions immediately to the terminal
gameover state. -/
theorem handleDropClassic_alignment_spec (gs : GameStateM) (world : List ℕ)
    (cat : CatEntity) (hfresh : cat.bodyId ∉ world) :
    (∀ c, isClassicCatAligned c none = true) ∧
      (∀ c prev, isClassicCatAligned c (some prev) = true ↔
        |c.x - prev.x| ≤ CAT_WIDTH * 0.8) ∧
      getPreviousCat gs.towerState = gs.towerState.cats.getLast? ∧
      (isClassicCatAligned cat (getPreviousCat gs.towerState) = false →
        (handleDropClassic gs world cat).1.currentState = GameStateType.gameover ∧
        (handleDropClassic gs world cat).1.towerState.cats = gs.towerState.cats ∧
        (handleDropClassic gs world cat).2 = world ∧
        cat.bodyId ∉ (handleDropClassic gs world cat).2) := by
  refine ⟨fun c => rfl, fun c prev => by simp [isClassicCatAligned], rfl, fun halign => ?_⟩
  have hw : (world ++ [cat.bodyId]).erase cat.bodyId = world := by
    rw [List.erase_append_right _ hfresh, List.erase_cons_head]
    simp
  refine ⟨?_, ?_, ?_, ?_⟩
  · simp [handleDropClassic, halign, transitionToGameOver]
  · simp [handleDropClassic, halign, transitionToGameOver]
  · simp only [handleDropClassic, halign, Bool.false_eq_true, if_false]
    exact hw
  · simp only [handleDropClassic, halign, Bool.false_eq_true, if_false]
    rw [hw]
    exact hfresh

/-- Witness for `handleDropClassic_alignment_spec`: dropping `wNewCat`
(x = 450, body id 2, fresh for the world [1]) onto the tower whose last cat
sits at x = 360 is misaligned (offset 90 > 64) and ends the round. -/
theorem handleDropClassic_alignment_spec_witness :
    wNewCat.bodyId ∉ ([1] : List ℕ) ∧
      isClassicCatAligned wNewCat (getPreviousCat wGameStatePlaying.towerState) = false ∧
      (handleDropClassic wGameStatePlaying [1] wNewCat).1.currentState =
        GameStateType.gameover ∧
      (handleDropClassic wGameStatePlaying [1] wNewCat).2 = [1] :=
  have hfresh : wNewCat.bodyId ∉ ([1] : List ℕ) := by decide
  have halign :
      isClassicCatAligned wNewCat (getPreviousCat wGameStatePlaying.towerState) = false := by
    norm_num [isClassicCatAligned, getPreviousCat, wGameStatePlaying, wGameState,
      createTowerState, calmCatW, wNewCat, CAT_WIDTH]
  have h :=
    (handleDropClassic_alignment_spec wGameStatePlaying [1] wNewCat hfresh).2.2.2 halign
  ⟨hfresh, halign, h.1, h.2.2.1⟩

/-- updateCatStability never changes the velocity, hence not the squared
speed. -/
theorem speedSq_updateCatStability (c : CatEntity) (dt : ℚ) :
    speedSq (updateCatStability c dt) = speedSq c := by
  unfold updateCatStability
  split_ifs <;> rfl

/-- updateCatStability never changes the expression. -/
theorem expression_updateCatStability (c : CatEntity) (dt : ℚ) :
    (updateCatStability c dt).expression = c.expression := by
  unfold updateCatStability
  split_ifs <;> rfl

/-- Counterexample to C8 as stated: the stability and wobble thresholds are
NOT inclusive at the boundary.  `cHalfCat` moves at speed exactly 0.5 (the
stability threshold) with 100 ms of stable time accumulated, yet
`updateCatStability` resets its stable time to 0 instead of accumulating
(the source compares with strict `<`); `cTwoCat` moves at speed exactly 2.0
(the wobble threshold), yet the per-cat tower step leaves its expression
neutral — not worried — and reports no wobble (strict `>`). -/
theorem boundary_inclusive_counterexample :
    getBodySpeed cHalfCat = ((STABILITY_VELOCITY_THRESHOLD : ℚ) : ℝ) ∧
      cHalfCat.stableTime = 100 ∧
      (updateCatStability cHalfCat 16).stableTime = 0 ∧
      getBodySpeed cTwoCat = ((WOBBLE_VELOCITY_THRESHOLD : ℚ) : ℝ) ∧
      (towerCatStep cTwoCat 16).1.expression = Expression.neutral ∧
      (towerCatStep cTwoCat 16).2.2 = false := by
  refine ⟨?_, rfl, ?_, ?_, ?_, ?_⟩
  · unfold getBodySpeed
    rw [show ((cHalfCat.vx : ℝ) ^ 2 + (cHalfCat.vy : ℝ) ^ 2) = ((1 / 2 : ℝ)) ^ 2 by
      norm_num [cHalfCat]]
    rw [Real.sqrt_sq (by norm_num)]
    norm_num [STABILITY_VELOCITY_THRESHOLD]
  · norm_num [updateCatStability, speedSq, cHalfCat, STABILITY_VELOCITY_THRESHOLD]
  · unfold getBodySpeed
    rw [show ((cTwoCat.vx : ℝ) ^ 2 + (cTwoCat.vy : ℝ) ^ 2) = ((2 : ℝ)) ^ 2 by
      norm_num [cTwoCat]]
    rw [Real.sqrt_sq (by norm_num)]
    norm_num [WOBBLE_VELOCITY_THRESHOLD]
  · norm_num [towerCatStep, updateCatStability, isCatStable, setCatExpression, speedSq,
      cTwoCat, WOBBLE_VELOCITY_THRESHOLD, STABILITY_VELOCITY_THRESHOLD,
      STABILITY_TIME_REQUIRED]
  · norm_num [towerCatStep, updateCatStability, isCatStable, setCatExpression, speedSq,
      cTwoCat, WOBBLE_VELOCITY_THRESHOLD, STABILITY_VELOCITY_THRESHOLD,
      STABILITY_TIME_REQUIRED]

/-- C8 (amended): exact-boundary inputs behave deterministically, but the
velocity thresholds are exclusive rather than inclusive: a speed strictly
below the stability threshold 0.5 accumulates stable time while a speed
equal to or above it resets the timer to 0 (so speed exactly 0.5 resets);
and a non-stable cat becomes worried (wobbling) exactly for speeds strictly
above the wobble threshold 2.0, while a speed equal to or below 2.0 leaves a
non-surprised cat neutral (so speed exactly 2.0 is not wobbling).  The
overlap, settling-time, alignment and perfect-landing comparisons are
inclusive at their boundaries. -/
theorem boundary_behavior_spec (c : CatEntity) (dt : ℚ) :
    (speedSq c < STABILITY_VELOCITY_THRESHOLD ^ 2 →
      (updateCatStability c dt).stableTime = c.stableTime + dt) ∧
      (STABILITY_VELOCITY_THRESHOLD ^ 2 ≤ speedSq c →
        (updateCatStability c dt).stableTime = 0) ∧
      (isCatStable (updateCatStability c dt) = false →
        WOBBLE_VELOCITY_THRESHOLD ^ 2 < speedSq c →
        (towerCatStep c dt).1.expression = Expression.worried ∧
          (towerCatStep c dt).2.2 = true) ∧
      (isCatStable (updateCatStability c dt) = false →
        speedSq c ≤ WOBBLE_VELOCITY_THRESHOLD ^ 2 →
        c.expression ≠ Expression.surprised →
        (towerCatStep c dt).1.expression = Expression.neutral ∧
          (towerCatStep c dt).2.2 = false) := by
  refine ⟨fun h => by simp [updateCatStability, h], fun h => by
    simp [updateCatStability, not_lt.mpr h], fun hns hw => ?_, fun hns hw hexp => ?_⟩
  · simp [towerCatStep, speedSq_updateCatStability, hns, hw, setCatExpression]
  · simp [towerCatStep, speedSq_updateCatStability, expression_updateCatStability, hns,
      not_lt.mpr hw, hexp, setCatExpression]

/-- Witness for `boundary_behavior_spec`: the exclusive boundaries exercised
at the exact threshold speeds — `cHalfCat` (speed 0.5) has its stable time
reset, and `cTwoCat` (speed 2.0) stays neutral. -/
theorem boundary_behavior_spec_witness :
    STABILITY_VELOCITY_THRESHOLD ^ 2 ≤ speedSq cHalfCat ∧
      (updateCatStability cHalfCat 16).stableTime = 0 ∧
      isCatStable (updateCatStability cTwoCat 16) = false ∧
      speedSq cTwoCat ≤ WOBBLE_VELOCITY_THRESHOLD ^ 2 ∧
      cTwoCat.expression ≠ Expression.surprised ∧
      (towerCatStep cTwoCat 16).1.expression = Expression.neutral :=
  have h1 : STABILITY_VELOCITY_THRESHOLD ^ 2 ≤ speedSq cHalfCat := by
    norm_num [speedSq, cHalfCat, STABILITY_VELOCITY_THRESHOLD]
  have h2 : isCatStable (updateCatStability cTwoCat 16) = false := by
    norm_num [isCatStable, updateCatStability, speedSq, cTwoCat,
      STABILITY_VELOCITY_THRESHOLD, STABILITY_TIME_REQUIRED]
  have h3 : speedSq cTwoCat ≤ WOBBLE_VELOCITY_THRESHOLD ^ 2 := by
    norm_num [speedSq, cTwoCat, WOBBLE_VELOCITY_THRESHOLD]
  have h4 : cTwoCat.expression ≠ Expression.surprised := by
    simp [cTwoCat]
  ⟨h1, (boundary_behavior_spec cHalfCat 16).2.1 h1, h2, h3, h4,
    ((boundary_behavior_spec cTwoCat 16).2.2.2 h2 h3 h4).1⟩

/-- setCatExpression never changes the squared speed. -/
theorem speedSq_setCatExpression (c : CatEntity) (e : Expression) :
    speedSq (setCatExpression c e) = speedSq c := rfl

/-- setCatExpression never changes the stable time. -/
theorem stableTime_setCatExpression (c : CatEntity) (e : Expression) :
    (setCatExpression c e).stableTime = c.stableTime := rfl

/-- The newly-stable flag of the per-cat tower step is exactly the
not-stable-before / stable-after transition. -/
theorem towerCatStep_newlyStable (c : CatEntity) (dt : ℚ) :
    (towerCatStep c dt).2.1 = (!isCatStable c && isCatStable (updateCatStability c dt)) := by
  unfold towerCatStep
  dsimp only
  split_ifs <;> rfl

/-- The per-cat tower step carries the stable time computed by
`updateCatStability` (the expression updates do not touch it). -/
theorem towerCatStep_stableTime (c : CatEntity) (dt : ℚ) :
    (towerCatStep c dt).1.stableTime = (updateCatStability c dt).stableTime := by
  unfold towerCatStep
  dsimp only
  split_ifs <;> simp [stableTime_setCatExpression]

/-- The per-cat tower step never changes the squared speed. -/
theorem towerCatStep_speedSq (c : CatEntity) (dt : ℚ) :
    speedSq (towerCatStep c dt).1 = speedSq c := by
  unfold towerCatStep
  dsimp only
  split_ifs <;> simp [speedSq_setCatExpression, speedSq_updateCatStability]

/-- Stability/slowness of the cat produced by the per-cat tower step. -/
theorem stableSlow_towerCatStep (c : CatEntity) (dt : ℚ) :
    stableSlow (towerCatStep c dt).1 =
      (isCatStable (updateCatStability c dt) &&
        decide (speedSq c < STABILITY_VELOCITY_THRESHOLD ^ 2)) := by
  unfold stableSlow isCatStable
  rw [towerCatStep_stableTime, towerCatStep_speedSq]

/-- A cat that is stable and slow stays stable and slow through a tower step
with a nonnegative time delta, and is never reported as newly stable. -/
theorem towerCatStep_of_stableSlow (c : CatEntity) (dt : ℚ) (hdt : 0 ≤ dt)
    (h : stableSlow c = true) :
    (towerCatStep c dt).2.1 = false ∧ stableSlow (towerCatStep c dt).1 = true := by
  have hparts : isCatStable c = true ∧
      decide (speedSq c < STABILITY_VELOCITY_THRESHOLD ^ 2) = true := by
    simpa [stableSlow, Bool.and_eq_true] using h
  have hstable : isCatStable c = true := hparts.1
  have hslow : speedSq c < STABILITY_VELOCITY_THRESHOLD ^ 2 :=
    of_decide_eq_true hparts.2
  have hst : (updateCatStability c dt).stableTime = c.stableTime + dt := by
    simp [updateCatStability, hslow]
  have hstable2 : isCatStable (updateCatStability c dt) = true := by
    unfold isCatStable at hstable ⊢
    rw [hst]
    exact decide_eq_true (by linarith [of_decide_eq_true hstable])
  refine ⟨?_, ?_⟩
  · rw [towerCatStep_newlyStable, hstable]
    rfl
  · rw [stableSlow_towerCatStep, hstable2]
    simp [hslow]

/-- A cat reported as newly stable by the tower step is stable and slow
afterwards (it can only have crossed the required time by accumulating,
which needs a sub-threshold speed). -/
theorem towerCatStep_of_newlyStable (c : CatEntity) (dt : ℚ)
    (h : (towerCatStep c dt).2.1 = true) : stableSlow (towerCatStep c dt).1 = true := by
  rw [towerCatStep_newlyStable] at h
  have hnow : isCatStable (updateCatStability c dt) = true := by
    have := h
    rw [Bool.and_eq_true] at this
    exact this.2
  have hslow : speedSq c < STABILITY_VELOCITY_THRESHOLD ^ 2 := by
    by_contra hge
    have hzero : (updateCatStability c dt).stableTime = 0 := by
      simp [updateCatStability, hge]
    unfold isCatStable at hnow
    rw [hzero] at hnow
    have := of_decide_eq_true hnow
    norm_num [STABILITY_TIME_REQUIRED] at this
  rw [stableSlow_towerCatStep, hnow]
  simp [hslow]

/-- Counting stable-and-slow cats across a cons. -/
theorem stableSlowCount_cons (c : CatEntity) (l : List CatEntity) :
    stableSlowCount (c :: l) = (if stableSlow c then 1 else 0) + stableSlowCount l := by
  simp only [stableSlowCount, List.filter_cons]
  split_ifs <;> simp [Nat.add_comm]

/-- Counting stable-and-slow cats across an append. -/
theorem stableSlowCount_append (l₁ l₂ : List CatEntity) :
    stableSlowCount (l₁ ++ l₂) = stableSlowCount l₁ + stableSlowCount l₂ := by
  simp [stableSlowCount, List.filter_append]

/-- The stable-and-slow count bounds the list length. -/
theorem stableSlowCount_le_length (l : List CatEntity) : stableSlowCount l ≤ l.length :=
  List.length_filter_le _ l

/-- Key accounting lemma for the updateTower loop: the increase of the
stacked count over one tick is at most the increase of the number of
stable-and-slow cats.  (Every newly counted cat is stable and slow
afterwards, and every cat that was stable and slow before stays so.) -/
theorem towerTickCats_count (dt : ℚ) (hdt : 0 ≤ dt) :
    ∀ (cats : List CatEntity) (sc lvl : ℕ),
      (towerTickCats dt cats sc lvl).2.1 + stableSlowCount cats ≤
        sc + stableSlowCount (towerTickCats dt cats sc lvl).1 := by
  intro cats
  induction cats with
  | nil => intro sc lvl; simp [towerTickCats]
  | cons hd tl ih =>
    intro sc lvl
    simp only [towerTickCats]
    rw [stableSlowCount_cons, stableSlowCount_cons]
    by_cases hnew : (towerCatStep hd dt).2.1 = true
    · have hafter := towerCatStep_of_newlyStable hd dt hnew
      have hbefore : stableSlow hd = false := by
        by_contra hb
        have hb' : stableSlow hd = true := by
          revert hb; cases stableSlow hd <;> simp
        have := (towerCatStep_of_stableSlow hd dt hdt hb').1
        rw [this] at hnew
        exact Bool.false_ne_true hnew
      have hbump : bumpStacked (towerCatStep hd dt).2.1 sc lvl =
          ((bumpStacked (towerCatStep hd dt).2.1 sc lvl).1,
            (bumpStacked (towerCatStep hd dt).2.1 sc lvl).2) := rfl
      have hbump1 : (bumpStacked (towerCatStep hd dt).2.1 sc lvl).1 = sc + 1 := by
        simp [bumpStacked, hnew]
      have h2 := ih (bumpStacked (towerCatStep hd dt).2.1 sc lvl).1
        (bumpStacked (towerCatStep hd dt).2.1 sc lvl).2
      rw [hbump1] at h2
      rw [hbefore, hafter, hbump1]
      simp only [Bool.false_eq_true, if_false, if_true]
      omega
    · have hnew' : (towerCatStep hd dt).2.1 = false := by
        revert hnew; cases (towerCatStep hd dt).2.1 <;> simp
      have hbump1 : (bumpStacked (towerCatStep hd dt).2.1 sc lvl).1 = sc := by
        simp [bumpStacked, hnew']
      have hbump2 : (bumpStacked (towerCatStep hd dt).2.1 sc lvl).2 = lvl := by
        simp [bumpStacked, hnew']
      rw [hbump1, hbump2]
      have h2 := ih sc lvl
      by_cases hb : stableSlow hd = true
      · have hafter := (towerCatStep_of_stableSlow hd dt hdt hb).2
        rw [hb, hafter]
        simp only [if_true]
        omega
      · have hb' : stableSlow hd = false := by
          revert hb; cases stableSlow hd <;> simp
        rw [hb']
        simp only [Bool.false_eq_true, if_false]
        have hcases : (if stableSlow (towerCatStep hd dt).1 then 1 else 0) = 0 ∨
            (if stableSlow (towerCatStep hd dt).1 then 1 else 0) = 1 := by
          split_ifs <;> simp
        omega

/-- Calm physics steps never decrease the number of stable-and-slow cats:
gameplay fields are preserved, and a stable cat is guaranteed to stay slow. -/
theorem stableSlowCount_le_of_forall2 {l₁ l₂ : List CatEntity}
    (h : List.Forall₂ calmStep l₁ l₂) : stableSlowCount l₁ ≤ stableSlowCount l₂ := by
  induction h with
  | nil => exact le_refl _
  | @cons a b l₁' l₂' hr hrest ih =>
    rw [stableSlowCount_cons, stableSlowCount_cons]
    rcases hr with ⟨hps, hcalm⟩
    by_cases hsa : stableSlow a = true
    · have hparts : isCatStable a = true ∧
          decide (speedSq a < STABILITY_VELOCITY_THRESHOLD ^ 2) = true := by
        simpa [stableSlow, Bool.and_eq_true] using hsa
      have hstb : isCatStable b = true := by
        unfold isCatStable at hparts ⊢
        rw [hps.2.2.1]
        exact hparts.1
      have hslb : speedSq b < STABILITY_VELOCITY_THRESHOLD ^ 2 := hcalm hparts.1
      have hsb : stableSlow b = true := by
        simp [stableSlow, hstb, hslb]
      rw [hsa, hsb]
      omega
    · have hsa' : stableSlow a = false := by
        revert hsa; cases stableSlow a <;> simp
      rw [hsa']
      have : (if stableSlow b then 1 else 0) + stableSlowCount l₂' ≥ stableSlowCount l₂' := by
        split_ifs <;> omega
      simp only [Bool.false_eq_true, if_false]
      omega

/-- Inductive invariant for calm traces: the stacked count never exceeds the
number of stable-and-slow cats in the tower. -/
theorem stackedCount_le_stableSlowCount_of_calm (t : TowerState)
    (h : TowerReachableCalm t) : t.stackedCount ≤ stableSlowCount t.cats := by
  induction h with
  | init => simp [createTowerState, stableSlowCount]
  | add t c ht ih =>
    simp only [addCatToTower, stableSlowCount_append]
    omega
  | update t dt hdt ht ih =>
    unfold updateTowerState
    split_ifs with hoff
    · exact ih
    · dsimp only
      have hkey := towerTickCats_count dt hdt t.cats t.stackedCount t.difficultyLevel
      omega
  | clear t w ht ih => simp [clearTowerWorld, createTowerState, stableSlowCount]
  | physics t cats ht hf ih => exact le_trans ih (stableSlowCount_le_of_forall2 hf)

/-- Counterexample to C9 as stated: the invariant `stackedCount ≤ cats.length`
does not survive the full operation set.  Concrete trace: starting from
`createTowerState`, add the resting cat `calmCatW`, run one `updateTower`
tick of 2000 ms (the cat becomes newly stable, so `stackedCount` becomes 1),
then remove that cat with `removeCatFromTower` (which never decrements
`stackedCount`).  The resulting reachable tower has no cats but
`stackedCount = 1`. -/
theorem stackedCount_invariant_counterexample :
    ∃ t, TowerReachable t ∧ t.cats.length < t.stackedCount := by
  refine ⟨removeCatFromTower
      (updateTowerState (addCatToTower createTowerState calmCatW) 2000)
      { calmCatW with expression := Expression.happy, stableTime := 2000 },
    TowerReachable.remove _ _ (TowerReachable.update _ 2000 (by norm_num)
      (TowerReachable.add _ _ TowerReachable.init)), ?_⟩
  have hupd : updateTowerState (addCatToTower createTowerState calmCatW) 2000 =
      { cats := [{ calmCatW with expression := Expression.happy, stableTime := 2000 }],
        pendulumCat := none, stackedCount := 1, isWobbling := false,
        hasFallenCat := false, difficultyLevel := 0 } := by
    norm_num [updateTowerState, addCatToTower, towerTickCats, towerCatStep, bumpStacked,
      updateCatStability, isCatStable, setCatExpression, isBodyOffScreen,
      checkDifficultyThreshold, checkDifficultyGo, createTowerState, calmCatW, speedSq,
      STABILITY_VELOCITY_THRESHOLD, STABILITY_TIME_REQUIRED, WOBBLE_VELOCITY_THRESHOLD,
      DEATH_ZONE_Y, CANVAS_WIDTH, CANVAS_HEIGHT, DIFFICULTY_THRESHOLDS]
  rw [hupd]
  norm_num [removeCatFromTower]

/-- C9 (amended): the invariant `stackedCount ≤ cats.length` holds for every
tower state reachable from `createTowerState` by adding cats, clearing the
tower, and update ticks with nonnegative frame deltas, provided the physics
steps in between are calm — cats that have already accumulated the required
stable time keep their speed below the stability threshold.  (As the
counterexample shows, the invariant fails for the unrestricted operation
set: `removeCatFromTower` does not decrement the count, and a cat knocked
back into motion after stabilising is counted twice when it stabilises
again.) -/
theorem stackedCount_le_cats_length_of_calm (t : TowerState)
    (h : TowerReachableCalm t) : t.stackedCount ≤ t.cats.length :=
  le_trans (stackedCount_le_stableSlowCount_of_calm t h) (stableSlowCount_le_length t.cats)

/-- Witness for `stackedCount_le_cats_length_of_calm`: the calm trace that
adds `calmCatW` and runs one 2000 ms tick (after which the cat is counted as
stacked) satisfies the invariant. -/
theorem stackedCount_le_cats_length_of_calm_witness :
    TowerReachableCalm (updateTowerState (addCatToTower createTowerState calmCatW) 2000) ∧
      (updateTowerState (addCatToTower createTowerState calmCatW) 2000).stackedCount ≤
        (updateTowerState (addCatToTower createTowerState calmCatW) 2000).cats.length :=
  have hreach : TowerReachableCalm
      (updateTowerState (addCatToTower createTowerState calmCatW) 2000) :=
    TowerReachableCalm.update _ 2000 (by norm_num)
      (TowerReachableCalm.add _ calmCatW TowerReachableCalm.init)
  ⟨hreach, stackedCount_le_cats_length_of_calm _ hreach⟩
